import Mathlib

/-!
Verification of the appointment-booking core of `fhir_mcp_server.py`
(the `create_appointment` tool, lines 1608-1851, and the `FHIRClient`
helper class, lines 36-85).

Shallow embedding choices, each traceable to the source:

* Parsed timestamps (`dateutil.parser.parse` results) are modelled as `Int`
  instants; the parser itself is a component `parse : String → Option Int`
  of the `FHIRClient` model, `none` standing for a raised parse error.
* `client.search("Appointment", **params)` returns a FHIR bundle; the code
  only reads `bundle.get("entry")[i]["resource"]`, so the model returns the
  list of `Appointment` resources directly (an HTTP failure makes `_req`
  return an OperationOutcome dict with no `entry` key, which the code
  treats exactly like an empty list, so `[]` also covers store failures of
  the two searches).
* The Python class `FHIRClient` defines only `_req`, `get_patient`,
  `search` and `create`; it has NO `update` method.  The reuse branch of
  `create_appointment` nevertheless calls `client.update(...)` (line 1743),
  which raises `AttributeError`, is caught by the blanket
  `except Exception` handler (line 1843) and turned into an
  OperationOutcome with code `exception`.  The model renders this as the
  result `BookingResult.exception ExcCause.attrUpdate`.
* The result is paired with the trace of store calls actually issued, so
  that claims about "zero store calls" or "at most one mutating call" are
  statable.
-/

/-- Parsed timestamps (`dateutil.parser.parse` results) are modelled as
integer instants; only their order and equality are used by the code. -/
abbrev TS := Int

/-- Python truthiness of an optional string argument: `None` and `""` are
falsy (`if not start_time`, `if practitioner_id:` etc.). -/
def falsy : Option String → Bool
  | Option.none => true
  | Option.some s => s == ""

/-- Python truthiness, positively. -/
def truthy (o : Option String) : Bool := !(falsy o)

/-- One entry of an Appointment's `participant` list: the code only reads
and writes `{"actor": {"reference": r}, "status": s}`. -/
structure Participant where
  reference : String
  pstatus : String
deriving Repr, DecidableEq

/-- The fields of an Appointment resource that `create_appointment` reads:
`id`, `.get("status")`, `.get("start")`, `.get("end")` (the latter three may
be absent), plus the fields copied on the update path. -/
structure Appointment where
  id : String
  status : Option String
  start : Option String
  end_ : Option String
  participant : List Participant
  description : Option String
  appointmentType : Option String
deriving Repr, DecidableEq

/-- The search parameters `create_appointment` sends to
`client.search("Appointment", **params)`: always `date`, optionally
`status` and `actor` (a Python dict, so a later `actor` assignment
overwrites an earlier one). -/
structure SearchParams where
  date : String
  status : Option String
  actor : Option String
deriving Repr, DecidableEq

/-- The new Appointment resource built on the create path (lines
1792-1837); the server assigns the id.  `appointmentType` stands for the
single coding code placed under the fixed v2-0276 system. -/
structure AppointmentDraft where
  status : String
  start : String
  end_ : String
  participant : List Participant
  description : Option String
  appointmentType : Option String
deriving Repr, DecidableEq

/-- Model of the `FHIRClient` collaborator as seen by
`create_appointment`: the store's response to an Appointment search, and
the timestamp parser (`dateutil.parser.parse`; `none` = raises). -/
structure FHIRClient where
  search : SearchParams → List Appointment
  parse : String → Option TS

/-- Cause of the blanket `except Exception` branch (line 1843). -/
inductive ExcCause where
  /-- `client.update(...)` raised `AttributeError`: the `FHIRClient` class
  defines no `update` method. -/
  | attrUpdate
  /-- `dateutil.parser.parse s` raised on the string `s`. -/
  | parseFail (s : String)
deriving Repr, DecidableEq

/-- The value returned by `create_appointment`: one of the three
OperationOutcome shapes it builds itself, or the passthrough of the
response to `client.create(draft)`. -/
inductive BookingResult where
  /-- OperationOutcome with issue code `invalid` (missing timestamps). -/
  | invalid (text : String)
  /-- OperationOutcome with issue code `conflict`. -/
  | conflict (text : String)
  /-- OperationOutcome with issue code `exception` (the blanket handler);
  its text is CPython's rendering of the exception, kept abstract. -/
  | exception (cause : ExcCause)
  /-- The response of `client.create("Appointment", d)` returned as-is. -/
  | created (d : AppointmentDraft)
deriving Repr, DecidableEq

/-- The issue `code` of the OperationOutcomes `create_appointment` builds
(`none` for the create-path passthrough). -/
def resultCode : BookingResult → Option String
  | BookingResult.invalid _ => Option.some "invalid"
  | BookingResult.conflict _ => Option.some "conflict"
  | BookingResult.exception _ => Option.some "exception"
  | BookingResult.created _ => Option.none

/-- The issue codes `FHIRClient._req` produces for store/infrastructure
failures (lines 57-74): `f"http-{status}"` for 401/403/404 and
`exception` for any other `httpx.HTTPError`. -/
def storeFailureCodes : List String := ["http-401", "http-403", "http-404", "exception"]

/-- A store call issued by `create_appointment`. -/
inductive StoreCall where
  | searchCall (p : SearchParams)
  | createCall (d : AppointmentDraft)
  /-- never emitted: the attribute lookup `client.update` fails before any
  request is made. -/
  | updateCall (id : String)
deriving Repr, DecidableEq

/-- Whether a store call mutates the store. -/
def isMutating : StoreCall → Bool
  | StoreCall.searchCall _ => false
  | StoreCall.createCall _ => true
  | StoreCall.updateCall _ => true

/-- Whether a store call is an update. -/
def isUpdate : StoreCall → Bool
  | StoreCall.updateCall _ => true
  | _ => false

/-- Half-open interval overlap, as written inline at lines 1690 and 1779:
`req_start < exist_end and req_end > exist_start`. -/
def overlaps (s1 e1 s2 e2 : TS) : Bool := decide (s1 < e2) && decide (s2 < e1)

/-- The free-slot matching test (line 1689-1690): exact endpoint equality
or overlap. -/
def freeSlotTest (rs re exs exe : TS) : Bool :=
  (rs == exs && re == exe) || overlaps rs re exs exe

/-- Outcome of scanning one search response. -/
inductive Scan (α : Type) where
  | found (a : α)
  | err (c : ExcCause)
  | notFound
deriving Repr, DecidableEq

/-- The four `dateutil.parser.parse` calls of one loop iteration, in source
order: request start, request end, existing start, existing end (lines
1683-1686 and 1773-1776); the first failure raises. -/
def parse4 (parse : String → Option TS) (st et es ee : String) :
    Except ExcCause (TS × TS × TS × TS) :=
  match parse st with
  | Option.none => Except.error (ExcCause.parseFail st)
  | Option.some rs =>
    match parse et with
    | Option.none => Except.error (ExcCause.parseFail et)
    | Option.some re =>
      match parse es with
      | Option.none => Except.error (ExcCause.parseFail es)
      | Option.some exs =>
        match parse ee with
        | Option.none => Except.error (ExcCause.parseFail ee)
        | Option.some exe => Except.ok (rs, re, exs, exe)

/-- The free-appointment loop (lines 1670-1744): first entry with both
`start` and `end` present whose interval equals or overlaps the request
wins; a parse error aborts the whole call. -/
def findFreeMatch (parse : String → Option TS) (st et : String) :
    List Appointment → Scan Appointment
  | [] => Scan.notFound
  | a :: rest =>
    if truthy a.start && truthy a.end_ then
      match parse4 parse st et (a.start.getD "") (a.end_.getD "") with
      | Except.error c => Scan.err c
      | Except.ok (rs, re, exs, exe) =>
        if freeSlotTest rs re exs exe then Scan.found a
        else findFreeMatch parse st et rest
    else findFreeMatch parse st et rest

/-- The conflict loop (lines 1758-1789): entries with status `cancelled`
or `noshow` are skipped (`.get("status") in ["cancelled", "noshow"]`);
the first remaining entry with both timestamps present whose interval
overlaps the request is reported together with its raw timestamp strings. -/
def findConflict (parse : String → Option TS) (st et : String) :
    List Appointment → Scan (Appointment × String × String)
  | [] => Scan.notFound
  | a :: rest =>
    if a.status == Option.some "cancelled" || a.status == Option.some "noshow" then
      findConflict parse st et rest
    else if truthy a.start && truthy a.end_ then
      match parse4 parse st et (a.start.getD "") (a.end_.getD "") with
      | Except.error c => Scan.err c
      | Except.ok (rs, re, exs, exe) =>
        if overlaps rs re exs exe then Scan.found (a, a.start.getD "", a.end_.getD "")
        else findConflict parse st et rest
    else findConflict parse st et rest

/-- The `actor` entry of the availability search parameters (lines
1658-1664): a dict key assigned first for the practitioner, then for the
location — the location assignment overwrites the practitioner one. -/
def availActor (practitioner_id location_id : Option String) : Option String :=
  let a0 : Option String := Option.none
  let a1 := if truthy practitioner_id
            then Option.some ("Practitioner/" ++ practitioner_id.getD "") else a0
  if truthy location_id then Option.some ("Location/" ++ location_id.getD "") else a1

/-- The availability (free-slot) search parameters (lines 1653-1664):
`{date: start_time, status: "free"}` plus the actor entry. -/
def availParams (st : String) (practitioner_id location_id : Option String) : SearchParams :=
  { date := st, status := Option.some "free", actor := availActor practitioner_id location_id }

/-- The conflict search parameters (lines 1748-1753): `{date: start_time}`
plus the practitioner actor when one is given. -/
def conflictParams (st : String) (practitioner_id : Option String) : SearchParams :=
  { date := st, status := Option.none,
    actor := if truthy practitioner_id
             then Option.some ("Practitioner/" ++ practitioner_id.getD "") else Option.none }

/-- Detail text of the `conflict` OperationOutcome (line 1786). -/
def conflictText (es ee : String) : String :=
  "Time slot conflict: An appointment already exists from " ++ es ++ " to " ++ ee

/-- Detail text of the missing-timestamps OperationOutcome (line 1644). -/
def missingTimesText : String :=
  "Both start_time and end_time are required for creating an appointment."

/-- The new Appointment built on the create path (lines 1792-1837):
patient participant first, then practitioner and location if truthy;
`description` and `appointmentType` only if truthy. -/
def buildDraft (patient_id : String) (practitioner_id location_id : Option String)
    (st et status : String) (description appointment_type : Option String) :
    AppointmentDraft :=
  { status := status
    start := st
    end_ := et
    participant :=
      [⟨"Patient/" ++ patient_id, "accepted"⟩]
        ++ (if truthy practitioner_id
            then [⟨"Practitioner/" ++ practitioner_id.getD "", "accepted"⟩] else [])
        ++ (if truthy location_id
            then [⟨"Location/" ++ location_id.getD "", "accepted"⟩] else [])
    description := if truthy description then description else Option.none
    appointmentType := if truthy appointment_type then appointment_type else Option.none }

/-- The updated Appointment the reuse branch constructs before calling the
nonexistent `client.update` (lines 1696-1740): status overwritten, the
participants replaced by patient plus optional practitioner/location,
description/appointmentType overwritten only if truthy. -/
def buildUpdated (a : Appointment) (patient_id : String)
    (practitioner_id location_id : Option String) (status : String)
    (description appointment_type : Option String) : Appointment :=
  { id := a.id
    status := Option.some status
    start := a.start
    end_ := a.end_
    participant :=
      [⟨"Patient/" ++ patient_id, "accepted"⟩]
        ++ (if truthy practitioner_id
            then [⟨"Practitioner/" ++ practitioner_id.getD "", "accepted"⟩] else [])
        ++ (if truthy location_id
            then [⟨"Location/" ++ location_id.getD "", "accepted"⟩] else [])
    description := if truthy description then description else a.description
    appointmentType := if truthy appointment_type then appointment_type else a.appointmentType }

/-- `create_appointment` (lines 1608-1851), as the pair of its return value
and the trace of store calls it issues.  Flow: presence check on the raw
timestamps, availability search + free-slot loop (a match reaches
`client.update`, which raises `AttributeError` since `FHIRClient` has no
such method, caught as an `exception` outcome), conflict search + conflict
loop, then `client.create` with a fresh draft.  The Python defaults are
`status = "booked"` and `None` for the optional arguments. -/
def create_appointment (client : FHIRClient) (patient_id : String)
    (practitioner_id : Option String) (start_time end_time : Option String)
    (status : String) (description appointment_type location_id : Option String) :
    BookingResult × List StoreCall :=
  if falsy start_time || falsy end_time then
    (BookingResult.invalid missingTimesText, [])
  else
    let st := start_time.getD ""
    let et := end_time.getD ""
    let ap := availParams st practitioner_id location_id
    match findFreeMatch client.parse st et (client.search ap) with
    | Scan.found _ => (BookingResult.exception ExcCause.attrUpdate, [StoreCall.searchCall ap])
    | Scan.err c => (BookingResult.exception c, [StoreCall.searchCall ap])
    | Scan.notFound =>
      let cp := conflictParams st practitioner_id
      match findConflict client.parse st et (client.search cp) with
      | Scan.found (_, es, ee) =>
        (BookingResult.conflict (conflictText es ee),
         [StoreCall.searchCall ap, StoreCall.searchCall cp])
      | Scan.err c =>
        (BookingResult.exception c, [StoreCall.searchCall ap, StoreCall.searchCall cp])
      | Scan.notFound =>
        let d := buildDraft patient_id practitioner_id location_id st et status
                   description appointment_type
        (BookingResult.created d,
         [StoreCall.searchCall ap, StoreCall.searchCall cp, StoreCall.createCall d])

/-! ### Concrete fixtures used by witnesses and counterexamples -/

/-- `2025-07-15T10:00:00Z`, the spec's running example. -/
def ts1000 : String := "2025-07-15T10:00:00Z"

/-- `2025-07-15T10:15:00Z`. -/
def ts1015 : String := "2025-07-15T10:15:00Z"

/-- `2025-07-15T10:30:00Z`. -/
def ts1030 : String := "2025-07-15T10:30:00Z"

/-- `2025-07-15T10:45:00Z`. -/
def ts1045 : String := "2025-07-15T10:45:00Z"

/-- A concrete parser for the four fixture timestamps (minutes past 10:00
on 2025-07-15, offset so 10:00 ↦ 1000); anything else fails to parse. -/
def demoParse : String → Option TS := fun s =>
  if s == ts1000 then Option.some 1000
  else if s == ts1015 then Option.some 1015
  else if s == ts1030 then Option.some 1030
  else if s == ts1045 then Option.some 1045
  else Option.none

/-- A Free reservation for practitioner P1, 10:00–10:30. -/
def freeApt : Appointment :=
  { id := "apt-free-1", status := Option.some "free",
    start := Option.some ts1000, end_ := Option.some ts1030,
    participant := [⟨"Practitioner/P1", "accepted"⟩],
    description := Option.none, appointmentType := Option.none }

/-- A Booked reservation, 10:00–10:30. -/
def bookedApt : Appointment :=
  { id := "apt-booked-1", status := Option.some "booked",
    start := Option.some ts1000, end_ := Option.some ts1030,
    participant := [⟨"Practitioner/P1", "accepted"⟩],
    description := Option.none, appointmentType := Option.none }

/-- A Cancelled reservation for practitioner P1, 10:00–10:30. -/
def cancelledApt : Appointment :=
  { id := "apt-cancelled-1", status := Option.some "cancelled",
    start := Option.some ts1000, end_ := Option.some ts1030,
    participant := [⟨"Practitioner/P1", "accepted"⟩],
    description := Option.none, appointmentType := Option.none }

/-- Store holding exactly the free 10:00–10:30 slot: any `status=free`
query returns it, any other query returns nothing. -/
def client1 : FHIRClient :=
  { search := fun p => if p.status == Option.some "free" then [freeApt] else [],
    parse := demoParse }

/-- Store holding exactly the booked 10:00–10:30 appointment: the
`status=free` availability query returns nothing, the unconstrained
conflict query returns it. -/
def clientBooked : FHIRClient :=
  { search := fun p => if p.status == Option.some "free" then [] else [bookedApt],
    parse := demoParse }

/-- Store with no reservations at all. -/
def emptyClient : FHIRClient :=
  { search := fun _ => [], parse := demoParse }

/-- Store where the free 10:00–10:30 slot is invisible to the
`status=free` availability query (it is attached to practitioner P1 only,
and the availability query is filtered by the location actor) but is
returned by the practitioner-filtered conflict query. -/
def clientFreeHidden : FHIRClient :=
  { search := fun p => if p.status == Option.some "free" then [] else [freeApt],
    parse := demoParse }

/-- Store holding exactly the cancelled 10:00–10:30 appointment. -/
def clientCancelled : FHIRClient :=
  { search := fun p => if p.status == Option.some "free" then [] else [cancelledApt],
    parse := demoParse }

/-- Entry-level test: all timestamps the conflict loop would parse for
this entry succeed (vacuously true when a timestamp is absent, since the
loop then skips the entry before parsing). -/
def parseOkB (parse : String → Option TS) (a : Appointment) : Bool :=
  !(truthy a.start && truthy a.end_)
    || ((parse (a.start.getD "")).isSome && (parse (a.end_.getD "")).isSome)

/-- Entry-level test: the entry would be reported by the conflict loop —
not cancelled/noshow, both timestamps present and parseable, and
overlapping the request interval `[rs, re)`. -/
def eligibleOverlapB (parse : String → Option TS) (rs re : TS) (a : Appointment) : Bool :=
  !(a.status == Option.some "cancelled" || a.status == Option.some "noshow")
    && (truthy a.start && truthy a.end_)
    && (match parse (a.start.getD ""), parse (a.end_.getD "") with
        | Option.some exs, Option.some exe => overlaps rs re exs exe
        | _, _ => false)

/-- Entry-level test: the entry cannot block the request — it is
cancelled/noshow, or lacks a timestamp, or parses to an interval that does
not overlap the request interval `[rs, re)`. -/
def conflictClearB (parse : String → Option TS) (rs re : TS) (a : Appointment) : Bool :=
  (a.status == Option.some "cancelled" || a.status == Option.some "noshow")
    || !(truthy a.start && truthy a.end_)
    || (match parse (a.start.getD ""), parse (a.end_.getD "") with
        | Option.some exs, Option.some exe => !(overlaps rs re exs exe)
        | _, _ => false)

/-! ### Theorems -/

/-- C7: the interval test of both scan loops is the half-open predicate
`a.start < b.end AND b.start < a.end` (the conflict loop's guard is
exactly `overlaps`, the free-slot loop's guard is endpoint equality or
`overlaps`); it is symmetric, back-to-back intervals never overlap, and a
positive-duration request merely touching an existing interval's boundary
also fails the free-slot matching test. -/
theorem c7_overlap_half_open_symmetric_back_to_back :
    (∀ s1 e1 s2 e2 : TS, overlaps s1 e1 s2 e2 = (decide (s1 < e2) && decide (s2 < e1)))
    ∧ (∀ s1 e1 s2 e2 : TS, overlaps s1 e1 s2 e2 = overlaps s2 e2 s1 e1)
    ∧ (∀ s m e : TS, overlaps s m m e = false ∧ overlaps m e s m = false)
    ∧ (∀ rs re x : TS, rs < re →
        freeSlotTest rs re re x = false ∧ freeSlotTest rs re x rs = false) := by
  refine ⟨fun _ _ _ _ => rfl, ?_, ?_, ?_⟩
  · intro s1 e1 s2 e2
    simp [overlaps, Bool.and_comm]
  · intro s m e
    constructor <;> simp [overlaps, lt_irrefl]
  · intro rs re x h
    constructor <;> simp [freeSlotTest, overlaps, h.ne, h.ne', lt_irrefl]

/-- Witness for C7 on concrete intervals: 10:00–10:30 against the
back-to-back 10:30–11:00 and against an interval ending at 10:00. -/
theorem c7_overlap_witness :
    (1000 : TS) < 1030 ∧ freeSlotTest 1000 1030 1030 1060 = false
      ∧ freeSlotTest 1000 1030 900 1000 = false :=
  ⟨by decide,
   (c7_overlap_half_open_symmetric_back_to_back.2.2.2 1000 1030 1060 (by decide)).1,
   (c7_overlap_half_open_symmetric_back_to_back.2.2.2 1000 1030 900 (by decide)).2⟩

/-- C1 (divergence witness): booking patient X against practitioner P1 for
exactly the interval of the existing Free reservation takes the reuse
branch, but the call `client.update(...)` raises `AttributeError` because
`FHIRClient` defines no `update` method; the blanket handler returns an
OperationOutcome with code `exception`, no update reaches the store, and
the trace holds only the availability search. -/
theorem c1_reuse_path_raises_attribute_error :
    create_appointment client1 "X" (Option.some "P1") (Option.some ts1000)
        (Option.some ts1030) "booked" Option.none Option.none Option.none
      = (BookingResult.exception ExcCause.attrUpdate,
         [StoreCall.searchCall
            { date := ts1000, status := Option.some "free",
              actor := Option.some "Practitioner/P1" }]) := by
  decide

/-- Helper: a nonempty string is not falsy. -/
theorem falsy_some_eq_false {s : String} (h : s ≠ "") : falsy (Option.some s) = false := by
  simp [falsy, h]

/-- Helper: once both timestamps are present and nonempty,
`create_appointment` is the two-scan cascade. -/
theorem create_appointment_eq (client : FHIRClient) (pid : String) (pr : Option String)
    (st et status : String) (dsc atype loc : Option String)
    (hst : st ≠ "") (het : et ≠ "") :
    create_appointment client pid pr (Option.some st) (Option.some et) status dsc atype loc
      = (match findFreeMatch client.parse st et (client.search (availParams st pr loc)) with
         | Scan.found _ =>
           (BookingResult.exception ExcCause.attrUpdate,
            [StoreCall.searchCall (availParams st pr loc)])
         | Scan.err c =>
           (BookingResult.exception c, [StoreCall.searchCall (availParams st pr loc)])
         | Scan.notFound =>
           match findConflict client.parse st et (client.search (conflictParams st pr)) with
           | Scan.found (_, es, ee) =>
             (BookingResult.conflict (conflictText es ee),
              [StoreCall.searchCall (availParams st pr loc),
               StoreCall.searchCall (conflictParams st pr)])
           | Scan.err c =>
             (BookingResult.exception c,
              [StoreCall.searchCall (availParams st pr loc),
               StoreCall.searchCall (conflictParams st pr)])
           | Scan.notFound =>
             (BookingResult.created (buildDraft pid pr loc st et status dsc atype),
              [StoreCall.searchCall (availParams st pr loc),
               StoreCall.searchCall (conflictParams st pr),
               StoreCall.createCall (buildDraft pid pr loc st et status dsc atype)])) := by
  unfold create_appointment
  rw [falsy_some_eq_false hst, falsy_some_eq_false het]
  rfl

/-- Helper: conflict branch of the cascade. -/
theorem create_appointment_conflict (client : FHIRClient) (pid : String) (pr : Option String)
    (st et status : String) (dsc atype loc : Option String)
    (a : Appointment) (es ee : String)
    (hst : st ≠ "") (het : et ≠ "")
    (hfree : findFreeMatch client.parse st et (client.search (availParams st pr loc))
               = Scan.notFound)
    (hconf : findConflict client.parse st et (client.search (conflictParams st pr))
               = Scan.found (a, es, ee)) :
    create_appointment client pid pr (Option.some st) (Option.some et) status dsc atype loc
      = (BookingResult.conflict (conflictText es ee),
         [StoreCall.searchCall (availParams st pr loc),
          StoreCall.searchCall (conflictParams st pr)]) := by
  rw [create_appointment_eq client pid pr st et status dsc atype loc hst het, hfree, hconf]

/-- Helper: create branch of the cascade. -/
theorem create_appointment_creates (client : FHIRClient) (pid : String) (pr : Option String)
    (st et status : String) (dsc atype loc : Option String)
    (hst : st ≠ "") (het : et ≠ "")
    (hfree : findFreeMatch client.parse st et (client.search (availParams st pr loc))
               = Scan.notFound)
    (hconf : findConflict client.parse st et (client.search (conflictParams st pr))
               = Scan.notFound) :
    create_appointment client pid pr (Option.some st) (Option.some et) status dsc atype loc
      = (BookingResult.created (buildDraft pid pr loc st et status dsc atype),
         [StoreCall.searchCall (availParams st pr loc),
          StoreCall.searchCall (conflictParams st pr),
          StoreCall.createCall (buildDraft pid pr loc st et status dsc atype)]) := by
  rw [create_appointment_eq client pid pr st et status dsc atype loc hst het, hfree, hconf]

/-- C2 (counterexample): a booking request naming neither practitioner nor
location is NOT exempt from conflict detection — with a booked 10:00–10:30
appointment in the store, the patient-only request 10:15–10:45 is rejected
with a `conflict` OperationOutcome instead of creating a new reservation. -/
theorem c2_patient_only_rejected_with_conflict :
    create_appointment clientBooked "X" Option.none (Option.some ts1015) (Option.some ts1045)
        "booked" Option.none Option.none Option.none
      = (BookingResult.conflict (conflictText ts1000 ts1030),
         [StoreCall.searchCall { date := ts1015, status := Option.some "free",
                                 actor := Option.none },
          StoreCall.searchCall { date := ts1015, status := Option.none,
                                 actor := Option.none }]) := by
  decide

/-- C2 (amended): a request naming neither practitioner nor location still
performs the availability search (with no actor filter) and, when the
free-slot scan finds nothing, the actor-unfiltered conflict scan; only
when both scans come back empty does it create a new reservation. -/
theorem c2_no_actor_still_scans_then_creates :
    ∀ (client : FHIRClient) (pid st et status : String) (dsc atype : Option String),
      st ≠ "" → et ≠ "" →
      (availParams st Option.none Option.none).actor = Option.none
      ∧ (findFreeMatch client.parse st et
            (client.search (availParams st Option.none Option.none)) = Scan.notFound →
         findConflict client.parse st et
            (client.search (conflictParams st Option.none)) = Scan.notFound →
         create_appointment client pid Option.none (Option.some st) (Option.some et)
             status dsc atype Option.none
           = (BookingResult.created (buildDraft pid Option.none Option.none st et status dsc atype),
              [StoreCall.searchCall (availParams st Option.none Option.none),
               StoreCall.searchCall (conflictParams st Option.none),
               StoreCall.createCall (buildDraft pid Option.none Option.none st et status dsc atype)])) := by
  intro client pid st et status dsc atype hst het
  exact ⟨rfl, fun hfree hconf =>
    create_appointment_creates client pid Option.none st et status dsc atype Option.none
      hst het hfree hconf⟩

/-- Witness for C2 (amended) on the empty store: the patient-only request
goes through both scans and ends in a create. -/
theorem c2_no_actor_witness :
    create_appointment emptyClient "X" Option.none (Option.some ts1000) (Option.some ts1030)
        "booked" Option.none Option.none Option.none
      = (BookingResult.created
           (buildDraft "X" Option.none Option.none ts1000 ts1030 "booked"
              Option.none Option.none),
         [StoreCall.searchCall (availParams ts1000 Option.none Option.none),
          StoreCall.searchCall (conflictParams ts1000 Option.none),
          StoreCall.createCall
            (buildDraft "X" Option.none Option.none ts1000 ts1030 "booked"
               Option.none Option.none)]) :=
  (c2_no_actor_still_scans_then_creates emptyClient "X" ts1000 ts1030 "booked"
      Option.none Option.none (by decide) (by decide)).2 (by decide) (by decide)

/-- C3 (counterexample): a location-only request (no practitioner) is not
exempt from conflict checking — with a booked 10:00–10:30 appointment in
the store, booking 10:15–10:45 at location L1 is rejected with `conflict`. -/
theorem c3_location_only_rejected_with_conflict :
    (create_appointment clientBooked "X" Option.none (Option.some ts1015) (Option.some ts1045)
        "booked" Option.none Option.none (Option.some "L1")).1
      = BookingResult.conflict (conflictText ts1000 ts1030) := by
  decide

/-- C3 (amended): when no practitioner is specified the conflict search is
merely issued without an actor filter (date-only), not skipped: the
conflict scan still runs on whatever that query returns, and such requests
are rejected with `conflict` whenever it reports an overlap. -/
theorem c3_no_practitioner_conflict_check_runs :
    ∀ (client : FHIRClient) (pid st et status : String) (dsc atype loc : Option String)
      (a : Appointment) (es ee : String),
      st ≠ "" → et ≠ "" →
      (conflictParams st Option.none).actor = Option.none
      ∧ (findFreeMatch client.parse st et
            (client.search (availParams st Option.none loc)) = Scan.notFound →
         findConflict client.parse st et
            (client.search (conflictParams st Option.none)) = Scan.found (a, es, ee) →
         (create_appointment client pid Option.none (Option.some st) (Option.some et)
             status dsc atype loc).1
           = BookingResult.conflict (conflictText es ee)) := by
  intro client pid st et status dsc atype loc a es ee hst het
  refine ⟨rfl, fun hfree hconf => ?_⟩
  rw [create_appointment_conflict client pid Option.none st et status dsc atype loc
        a es ee hst het hfree hconf]

/-- Witness for C3 (amended): the location-only request on the
booked-appointment store is rejected with the 10:00–10:30 conflict. -/
theorem c3_no_practitioner_witness :
    (create_appointment clientBooked "X" Option.none (Option.some ts1015) (Option.some ts1045)
        "booked" Option.none Option.none (Option.some "L1")).1
      = BookingResult.conflict (conflictText ts1000 ts1030) :=
  (c3_no_practitioner_conflict_check_runs clientBooked "X" ts1015 ts1045 "booked"
      Option.none Option.none (Option.some "L1") bookedApt ts1000 ts1030
      (by decide) (by decide)).2 (by decide) (by decide)

/-- Helper: a nonempty string is truthy. -/
theorem truthy_some {s : String} (h : s ≠ "") : truthy (Option.some s) = true := by
  simp [truthy, falsy, h]

/-- Helper: a non-falsy optional string is a nonempty string. -/
theorem notFalsy_eq_some {o : Option String} (h : falsy o = false) :
    ∃ s, o = Option.some s ∧ s ≠ "" := by
  cases o with
  | none => simp [falsy] at h
  | some s =>
    refine ⟨s, rfl, ?_⟩
    simpa [falsy] using h

/-- Helper: once both timestamps pass the presence check, the first store
call is always the availability search. -/
theorem create_appointment_head (client : FHIRClient) (pid : String) (pr : Option String)
    (st et status : String) (dsc atype loc : Option String)
    (hst : st ≠ "") (het : et ≠ "") :
    (create_appointment client pid pr (Option.some st) (Option.some et)
        status dsc atype loc).2.head?
      = Option.some (StoreCall.searchCall (availParams st pr loc)) := by
  rw [create_appointment_eq client pid pr st et status dsc atype loc hst het]
  cases hm : findFreeMatch client.parse st et (client.search (availParams st pr loc)) with
  | found a => rfl
  | err c => rfl
  | notFound =>
    cases hc : findConflict client.parse st et (client.search (conflictParams st pr)) with
    | found x => obtain ⟨a, es, ee⟩ := x; rfl
    | err c => rfl
    | notFound => rfl

/-- C4 (counterexample): `create_appointment` performs no `start < end`
validation.  With `start_time` parsing to 10:30 and `end_time` to 10:00
(start > end), the call is not rejected with an invalid-interval outcome:
it issues two store searches and a create, and returns the created
appointment with the reversed interval. -/
theorem c4_start_after_end_not_validated :
    demoParse ts1030 = Option.some 1030
    ∧ demoParse ts1000 = Option.some 1000
    ∧ ((1000 : TS) < 1030)
    ∧ create_appointment emptyClient "X" (Option.some "P1") (Option.some ts1030)
         (Option.some ts1000) "booked" Option.none Option.none Option.none
      = (BookingResult.created
           (buildDraft "X" (Option.some "P1") Option.none ts1030 ts1000 "booked"
              Option.none Option.none),
         [StoreCall.searchCall (availParams ts1030 (Option.some "P1") Option.none),
          StoreCall.searchCall (conflictParams ts1030 (Option.some "P1")),
          StoreCall.createCall
            (buildDraft "X" (Option.some "P1") Option.none ts1030 ts1000 "booked"
               Option.none Option.none)]) := by
  refine ⟨rfl, rfl, by decide, ?_⟩
  decide

/-- C4 (amended): the only pre-store validation is presence of the raw
timestamps.  A missing or empty `start_time`/`end_time` returns the
`invalid` OperationOutcome with zero store calls; every other request —
including `start >= end` and unparseable timestamps — reaches the store,
its first call being the availability search. -/
theorem c4_presence_only_validation :
    ∀ (client : FHIRClient) (pid : String) (pr : Option String)
      (start_time end_time : Option String) (status : String) (dsc atype loc : Option String),
      ((falsy start_time || falsy end_time) = true
        ∧ create_appointment client pid pr start_time end_time status dsc atype loc
            = (BookingResult.invalid missingTimesText, []))
      ∨ ((falsy start_time || falsy end_time) = false
        ∧ (create_appointment client pid pr start_time end_time status dsc atype loc).2.head?
            = Option.some (StoreCall.searchCall
                (availParams (start_time.getD "") pr loc))) := by
  intro client pid pr start_time end_time status dsc atype loc
  cases hb : (falsy start_time || falsy end_time) with
  | true =>
    left
    exact ⟨rfl, by simp [create_appointment, hb]⟩
  | false =>
    right
    obtain ⟨hf1, hf2⟩ := Bool.or_eq_false_iff.mp hb
    obtain ⟨st, rfl, hst⟩ := notFalsy_eq_some hf1
    obtain ⟨et, rfl, het⟩ := notFalsy_eq_some hf2
    exact ⟨rfl, create_appointment_head client pid pr st et status dsc atype loc hst het⟩

/-- C9: every run of `create_appointment` issues at most one mutating
store call, and never an update call at all (in particular never both an
update and a create, and no mutating call twice): the only mutating call
ever issued is the single `client.create` of the create path — the reuse
branch's `client.update` raises before any request is sent. -/
theorem c9_at_most_one_mutating_call :
    ∀ (client : FHIRClient) (pid : String) (pr : Option String)
      (start_time end_time : Option String) (status : String) (dsc atype loc : Option String),
      ((create_appointment client pid pr start_time end_time status dsc atype loc).2.countP
          (fun c => isMutating c)) ≤ 1
      ∧ ((create_appointment client pid pr start_time end_time status dsc atype loc).2.all
          (fun c => !(isUpdate c))) = true := by
  intro client pid pr start_time end_time status dsc atype loc
  cases hb : (falsy start_time || falsy end_time) with
  | true =>
    constructor <;> simp [create_appointment, hb]
  | false =>
    obtain ⟨hf1, hf2⟩ := Bool.or_eq_false_iff.mp hb
    obtain ⟨st, rfl, hst⟩ := notFalsy_eq_some hf1
    obtain ⟨et, rfl, het⟩ := notFalsy_eq_some hf2
    rw [create_appointment_eq client pid pr st et status dsc atype loc hst het]
    cases hm : findFreeMatch client.parse st et (client.search (availParams st pr loc)) with
    | found a =>
      constructor <;>
        simp [List.countP_cons, List.countP_nil, List.all_cons, List.all_nil,
              isMutating, isUpdate]
    | err c =>
      constructor <;>
        simp [List.countP_cons, List.countP_nil, List.all_cons, List.all_nil,
              isMutating, isUpdate]
    | notFound =>
      cases hc : findConflict client.parse st et (client.search (conflictParams st pr)) with
      | found x =>
        obtain ⟨a, es, ee⟩ := x
        constructor <;>
          simp [List.countP_cons, List.countP_nil, List.all_cons, List.all_nil,
                isMutating, isUpdate]
      | err c =>
        constructor <;>
          simp [List.countP_cons, List.countP_nil, List.all_cons, List.all_nil,
                isMutating, isUpdate]
      | notFound =>
        constructor <;>
          simp [List.countP_cons, List.countP_nil, List.all_cons, List.all_nil,
                isMutating, isUpdate]

/-- C10: when both a practitioner and a location are supplied, the `actor`
entry of the availability search parameters is assigned for the
practitioner and then overwritten by the location assignment, so the
free-slot search issued to the store is filtered by the Location actor
only (a free slot attached only to the practitioner is invisible to it). -/
theorem c10_location_overwrites_practitioner :
    ∀ (p l : String) (client : FHIRClient) (pid st et status : String)
      (dsc atype : Option String),
      p ≠ "" → l ≠ "" → st ≠ "" → et ≠ "" →
      availActor (Option.some p) (Option.some l) = Option.some ("Location/" ++ l)
      ∧ (availParams st (Option.some p) (Option.some l)).actor
          = Option.some ("Location/" ++ l)
      ∧ (create_appointment client pid (Option.some p) (Option.some st) (Option.some et)
           status dsc atype (Option.some l)).2.head?
          = Option.some (StoreCall.searchCall
              { date := st, status := Option.some "free",
                actor := Option.some ("Location/" ++ l) }) := by
  intro p l client pid st et status dsc atype hp hl hst het
  have ha : availActor (Option.some p) (Option.some l) = Option.some ("Location/" ++ l) := by
    simp [availActor, truthy_some hl]
  have hap : availParams st (Option.some p) (Option.some l)
      = { date := st, status := Option.some "free",
          actor := Option.some ("Location/" ++ l) } := by
    simp [availParams, ha]
  refine ⟨ha, by rw [availParams, ha], ?_⟩
  rw [create_appointment_head client pid (Option.some p) st et status dsc atype
        (Option.some l) hst het, hap]

/-- Witness for C10 at practitioner P1 and location L1: the availability
search of a booking naming both is filtered by `Location/L1`. -/
theorem c10_witness :
    availActor (Option.some "P1") (Option.some "L1") = Option.some ("Location/" ++ "L1")
    ∧ (create_appointment client1 "X" (Option.some "P1") (Option.some ts1000)
         (Option.some ts1030) "booked" Option.none Option.none (Option.some "L1")).2.head?
        = Option.some (StoreCall.searchCall
            { date := ts1000, status := Option.some "free",
              actor := Option.some ("Location/" ++ "L1") }) :=
  let h := c10_location_overwrites_practitioner "P1" "L1" client1 "X" ts1000 ts1030
    "booked" Option.none Option.none (by decide) (by decide) (by decide) (by decide)
  ⟨h.1, h.2.2⟩

/-- Helper: a truthy optional string is `some` of its nonempty contents. -/
theorem truthy_eq_some {o : Option String} (h : truthy o = true) :
    o = Option.some (o.getD "") ∧ o.getD "" ≠ "" := by
  cases o with
  | none => simp [truthy, falsy] at h
  | some s =>
    refine ⟨rfl, ?_⟩
    simpa [truthy, falsy] using h

/-- Helper: anything the conflict loop reports is a member of the scanned
list, is not cancelled or noshow, and carries exactly the reported raw
timestamp strings. -/
theorem findConflict_found_spec (parse : String → Option TS) (st et : String) :
    ∀ (l : List Appointment) (a : Appointment) (es ee : String),
      findConflict parse st et l = Scan.found (a, es, ee) →
      a.status ≠ Option.some "cancelled" ∧ a.status ≠ Option.some "noshow"
        ∧ a ∈ l ∧ a.start = Option.some es ∧ a.end_ = Option.some ee := by
  intro l
  induction l with
  | nil =>
    intro a es ee h
    simp [findConflict] at h
  | cons b rest ih =>
    intro a es ee h
    simp only [findConflict] at h
    split at h
    · obtain ⟨h1, h2, h3, h4, h5⟩ := ih a es ee h
      exact ⟨h1, h2, List.mem_cons_of_mem _ h3, h4, h5⟩
    · next hskip =>
      split at h
      · next htimes =>
        split at h
        · simp at h
        · next rs re exs exe hp4 =>
          split at h
          · next hov =>
            simp only [Scan.found.injEq, Prod.mk.injEq] at h
            obtain ⟨rfl, rfl, rfl⟩ := h
            simp only [Bool.or_eq_true, beq_iff_eq, not_or] at hskip
            obtain ⟨hc1, hc2⟩ := hskip
            simp only [Bool.and_eq_true] at htimes
            obtain ⟨ht1, ht2⟩ := htimes
            exact ⟨hc1, hc2, List.mem_cons_self _ _,
                   (truthy_eq_some ht1).1, (truthy_eq_some ht2).1⟩
          · obtain ⟨h1, h2, h3, h4, h5⟩ := ih a es ee h
            exact ⟨h1, h2, List.mem_cons_of_mem _ h3, h4, h5⟩
      · obtain ⟨h1, h2, h3, h4, h5⟩ := ih a es ee h
        exact ⟨h1, h2, List.mem_cons_of_mem _ h3, h4, h5⟩

/-- C5 (amended): the conflict scan filters out exactly the Cancelled and
NoShow statuses — whatever it reports as the conflicting reservation is a
scanned entry that is neither cancelled nor noshow, with the reported
timestamps — but Free is not excluded, so a Free reservation visible to
the conflict query can be reported (see the counterexample). -/
theorem c5_conflict_scan_skips_only_cancelled_noshow :
    ∀ (parse : String → Option TS) (st et : String) (l : List Appointment)
      (a : Appointment) (es ee : String),
      findConflict parse st et l = Scan.found (a, es, ee) →
      a.status ≠ Option.some "cancelled" ∧ a.status ≠ Option.some "noshow"
        ∧ a ∈ l ∧ a.start = Option.some es ∧ a.end_ = Option.some ee := by
  intro parse st et l a es ee h
  exact findConflict_found_spec parse st et l a es ee h

/-- Witness for C5 (amended): the booked 10:00–10:30 appointment reported
against the 10:15–10:45 request is neither cancelled nor noshow. -/
theorem c5_conflict_scan_witness :
    bookedApt.status ≠ Option.some "cancelled" ∧ bookedApt.status ≠ Option.some "noshow"
      ∧ bookedApt ∈ [bookedApt] ∧ bookedApt.start = Option.some ts1000
      ∧ bookedApt.end_ = Option.some ts1030 :=
  c5_conflict_scan_skips_only_cancelled_noshow demoParse ts1015 ts1045 [bookedApt]
    bookedApt ts1000 ts1030 (by decide)

/-- C5 (counterexample): a Free reservation CAN be returned as the
conflicting reservation.  Booking 10:00–10:30 with both practitioner P1
and location L1, the availability search is filtered by `Location/L1` and
misses the practitioner's Free slot, but the practitioner-filtered
conflict query returns it; since the conflict loop skips only `cancelled`
and `noshow`, the Free reservation is reported as a conflict. -/
theorem c5_free_reservation_reported_as_conflict :
    freeApt.status = Option.some "free"
    ∧ (create_appointment clientFreeHidden "X" (Option.some "P1") (Option.some ts1000)
         (Option.some ts1030) "booked" Option.none Option.none (Option.some "L1")).1
        = BookingResult.conflict (conflictText ts1000 ts1030) := by
  exact ⟨rfl, by decide⟩

/-- Helper: when the request timestamps parse, every entry's timestamps
parse where needed, and some entry is an eligible overlap, the conflict
scan reports a conflict. -/
theorem findConflict_found_of_exists (parse : String → Option TS) (st et : String)
    (rs re : TS) (hst : parse st = Option.some rs) (het : parse et = Option.some re) :
    ∀ (l : List Appointment),
      l.all (fun a => parseOkB parse a) = true →
      l.any (fun a => eligibleOverlapB parse rs re a) = true →
      ∃ a es ee, findConflict parse st et l = Scan.found (a, es, ee) := by
  intro l
  induction l with
  | nil =>
    intro _ hany
    simp at hany
  | cons b rest ih =>
    intro hall hany
    rw [List.all_cons] at hall
    simp only [Bool.and_eq_true] at hall
    obtain ⟨hokb, hallrest⟩ := hall
    rw [List.any_cons] at hany
    simp only [Bool.or_eq_true] at hany
    simp only [findConflict]
    by_cases hskip :
        (b.status == Option.some "cancelled" || b.status == Option.some "noshow") = true
    · rw [if_pos hskip]
      apply ih hallrest
      rcases hany with hb | hrest
      · exfalso
        simp only [eligibleOverlapB, Bool.and_eq_true] at hb
        obtain ⟨⟨h1, _⟩, _⟩ := hb
        rw [hskip] at h1
        simp at h1
      · exact hrest
    · rw [if_neg hskip]
      by_cases htimes : (truthy b.start && truthy b.end_) = true
      · rw [if_pos htimes]
        have hok : ((parse (b.start.getD "")).isSome
            && (parse (b.end_.getD "")).isSome) = true := by
          simp only [parseOkB, htimes, Bool.not_true, Bool.false_or] at hokb
          exact hokb
        simp only [Bool.and_eq_true] at hok
        obtain ⟨hps, hpe⟩ := hok
        obtain ⟨exs, hexs⟩ := Option.isSome_iff_exists.mp hps
        obtain ⟨exe, hexe⟩ := Option.isSome_iff_exists.mp hpe
        have hp4 : parse4 parse st et (b.start.getD "") (b.end_.getD "")
            = Except.ok (rs, re, exs, exe) := by
          simp [parse4, hst, het, hexs, hexe]
        simp only [hp4]
        by_cases hov : overlaps rs re exs exe = true
        · rw [if_pos hov]
          exact ⟨b, b.start.getD "", b.end_.getD "", rfl⟩
        · rw [if_neg hov]
          apply ih hallrest
          rcases hany with hb | hrest
          · exfalso
            simp only [eligibleOverlapB, Bool.and_eq_true] at hb
            obtain ⟨⟨_, _⟩, h3⟩ := hb
            simp only [hexs, hexe] at h3
            exact hov h3
          · exact hrest
      · rw [if_neg htimes]
        apply ih hallrest
        rcases hany with hb | hrest
        · exfalso
          simp only [eligibleOverlapB, Bool.and_eq_true] at hb
          obtain ⟨⟨_, h2⟩, _⟩ := hb
          exact htimes (by simp [h2.1, h2.2])
        · exact hrest

/-- Helper: when the request timestamps parse and every entry is clear
(cancelled/noshow, lacking a timestamp, or parsing to a non-overlapping
interval), the conflict scan reports nothing. -/
theorem findConflict_notFound_of_all_clear (parse : String → Option TS) (st et : String)
    (rs re : TS) (hst : parse st = Option.some rs) (het : parse et = Option.some re) :
    ∀ (l : List Appointment),
      l.all (fun a => conflictClearB parse rs re a) = true →
      findConflict parse st et l = Scan.notFound := by
  intro l
  induction l with
  | nil =>
    intro _
    simp [findConflict]
  | cons b rest ih =>
    intro hall
    rw [List.all_cons] at hall
    simp only [Bool.and_eq_true] at hall
    obtain ⟨hclear, hallrest⟩ := hall
    simp only [findConflict]
    by_cases hskip :
        (b.status == Option.some "cancelled" || b.status == Option.some "noshow") = true
    · rw [if_pos hskip]
      exact ih hallrest
    · rw [if_neg hskip]
      by_cases htimes : (truthy b.start && truthy b.end_) = true
      · rw [if_pos htimes]
        have hskipf :
            (b.status == Option.some "cancelled" || b.status == Option.some "noshow")
              = false := by
          cases hx :
              (b.status == Option.some "cancelled" || b.status == Option.some "noshow") with
          | false => rfl
          | true => exact absurd hx hskip
        simp only [conflictClearB, hskipf, htimes, Bool.not_true, Bool.false_or] at hclear
        cases hexs : parse (b.start.getD "") with
        | none =>
          rw [hexs] at hclear
          simp at hclear
        | some exs =>
          cases hexe : parse (b.end_.getD "") with
          | none =>
            rw [hexs, hexe] at hclear
            simp at hclear
          | some exe =>
            rw [hexs, hexe] at hclear
            simp only [] at hclear
            have hp4 : parse4 parse st et (b.start.getD "") (b.end_.getD "")
                = Except.ok (rs, re, exs, exe) := by
              simp [parse4, hst, het, hexs, hexe]
            simp only [hp4]
            have hov : overlaps rs re exs exe = false := by
              simpa using hclear
            rw [hov]
            simpa using ih hallrest
      · rw [if_neg htimes]
        exact ih hallrest

/-- C6: with a practitioner specified, when the free-slot scan found
nothing and the store's conflict-query response (the reservations for that
practitioner on that date) contains a non-cancelled, non-noshow entry
overlapping the requested interval (all timestamps in play parseable),
`create_appointment` returns a `conflict` OperationOutcome whose detail
text embeds the conflicting reservation's start and end strings; the
`conflict` issue code is distinct from every store-failure code. -/
theorem c6_conflict_rejection :
    ∀ (client : FHIRClient) (pid : String) (pr : Option String) (st et status : String)
      (dsc atype loc : Option String) (rs re : TS),
      st ≠ "" → et ≠ "" → truthy pr = true →
      client.parse st = Option.some rs → client.parse et = Option.some re →
      findFreeMatch client.parse st et (client.search (availParams st pr loc))
          = Scan.notFound →
      (client.search (conflictParams st pr)).all
          (fun a => parseOkB client.parse a) = true →
      (client.search (conflictParams st pr)).any
          (fun a => eligibleOverlapB client.parse rs re a) = true →
      ∃ (a : Appointment) (es ee : String),
        a ∈ client.search (conflictParams st pr)
        ∧ a.start = Option.some es ∧ a.end_ = Option.some ee
        ∧ a.status ≠ Option.some "cancelled" ∧ a.status ≠ Option.some "noshow"
        ∧ (create_appointment client pid pr (Option.some st) (Option.some et)
             status dsc atype loc).1
            = BookingResult.conflict (conflictText es ee)
        ∧ conflictText es ee
            = "Time slot conflict: An appointment already exists from " ++ es ++ " to " ++ ee
        ∧ resultCode (BookingResult.conflict (conflictText es ee)) = Option.some "conflict"
        ∧ "conflict" ∉ storeFailureCodes := by
  intro client pid pr st et status dsc atype loc rs re hst het _ hpst hpet hfree hall hany
  obtain ⟨a, es, ee, hfound⟩ :=
    findConflict_found_of_exists client.parse st et rs re hpst hpet
      (client.search (conflictParams st pr)) hall hany
  obtain ⟨hc1, hc2, hmem, hstart, hend⟩ :=
    findConflict_found_spec client.parse st et (client.search (conflictParams st pr))
      a es ee hfound
  refine ⟨a, es, ee, hmem, hstart, hend, hc1, hc2, ?_, rfl, rfl, by decide⟩
  rw [create_appointment_conflict client pid pr st et status dsc atype loc a es ee
        hst het hfree hfound]

/-- Witness for C6: the booked 10:00–10:30 appointment for P1 makes the
10:15–10:45 request fail with a `conflict` outcome citing 10:00–10:30. -/
theorem c6_conflict_rejection_witness :
    ∃ (a : Appointment) (es ee : String),
      a ∈ clientBooked.search (conflictParams ts1015 (Option.some "P1"))
      ∧ a.start = Option.some es ∧ a.end_ = Option.some ee
      ∧ a.status ≠ Option.some "cancelled" ∧ a.status ≠ Option.some "noshow"
      ∧ (create_appointment clientBooked "X" (Option.some "P1") (Option.some ts1015)
           (Option.some ts1045) "booked" Option.none Option.none Option.none).1
          = BookingResult.conflict (conflictText es ee)
      ∧ conflictText es ee
          = "Time slot conflict: An appointment already exists from " ++ es ++ " to " ++ ee
      ∧ resultCode (BookingResult.conflict (conflictText es ee)) = Option.some "conflict"
      ∧ "conflict" ∉ storeFailureCodes :=
  c6_conflict_rejection clientBooked "X" (Option.some "P1") ts1015 ts1045 "booked"
    Option.none Option.none Option.none 1015 1045 (by decide) (by decide) (by decide)
    (by decide) (by decide) (by decide) (by decide) (by decide)

/-- C8: when the free-slot scan found nothing and every reservation the
conflict query returns is cancelled/noshow (or lacks a timestamp, or does
not overlap), the request is not rejected: `create_appointment` issues the
create call and returns the created reservation — cancelled entries never
block booking. -/
theorem c8_cancelled_entries_never_block :
    ∀ (client : FHIRClient) (pid : String) (pr : Option String) (st et status : String)
      (dsc atype loc : Option String) (rs re : TS),
      st ≠ "" → et ≠ "" → truthy pr = true →
      client.parse st = Option.some rs → client.parse et = Option.some re →
      findFreeMatch client.parse st et (client.search (availParams st pr loc))
          = Scan.notFound →
      (client.search (conflictParams st pr)).all
          (fun a => conflictClearB client.parse rs re a) = true →
      create_appointment client pid pr (Option.some st) (Option.some et) status dsc atype loc
        = (BookingResult.created (buildDraft pid pr loc st et status dsc atype),
           [StoreCall.searchCall (availParams st pr loc),
            StoreCall.searchCall (conflictParams st pr),
            StoreCall.createCall (buildDraft pid pr loc st et status dsc atype)]) := by
  intro client pid pr st et status dsc atype loc rs re hst het _ hpst hpet hfree hall
  exact create_appointment_creates client pid pr st et status dsc atype loc hst het hfree
    (findConflict_notFound_of_all_clear client.parse st et rs re hpst hpet
      (client.search (conflictParams st pr)) hall)

/-- Witness for C8: with only the cancelled 10:00–10:30 reservation for P1
in the store, booking P1 for exactly 10:00–10:30 succeeds by creating a
new reservation. -/
theorem c8_cancelled_witness :
    create_appointment clientCancelled "X" (Option.some "P1") (Option.some ts1000)
        (Option.some ts1030) "booked" Option.none Option.none Option.none
      = (BookingResult.created
           (buildDraft "X" (Option.some "P1") Option.none ts1000 ts1030 "booked"
              Option.none Option.none),
         [StoreCall.searchCall (availParams ts1000 (Option.some "P1") Option.none),
          StoreCall.searchCall (conflictParams ts1000 (Option.some "P1")),
          StoreCall.createCall
            (buildDraft "X" (Option.some "P1") Option.none ts1000 ts1030 "booked"
               Option.none Option.none)]) :=
  c8_cancelled_entries_never_block clientCancelled "X" (Option.some "P1") ts1000 ts1030
    "booked" Option.none Option.none Option.none 1000 1030 (by decide) (by decide)
    (by decide) (by decide) (by decide) (by decide) (by decide)
